import Mathlib

/-!
Verification development for the nuLigaHelper home-game planning script
(`nuLigaHelperClass.py`).  The table reconciliation engine (`merge_tables`
with its two change handlers), the notification dispatch pipelines, and the
newspaper digest are embedded shallowly over lists of game records, and the
spec's testable properties are settled against this embedding.
-/

set_option maxHeartbeats 1000000

namespace NuLiga

/-- Python values that can sit in a pandas contact cell or be passed as an
argument: a string, an integer, or a float NaN (the pandas blank). -/
inductive PyVal where
  | pstr (s : String)
  | pint (n : Nat)
  | pnan
deriving DecidableEq, Repr

/-- Python `==` between such values: strings compare to strings, ints to
ints, NaN compares unequal to everything (including itself). -/
def pyEq : PyVal → PyVal → Bool
  | .pstr a, .pstr b => a == b
  | .pint a, .pint b => a == b
  | _, _ => false

/-- Does the character list `needle` occur at the start of `hay`? -/
def charStarts : List Char → List Char → Bool
  | [], _ => true
  | _ :: _, [] => false
  | a :: as, b :: bs => a == b && charStarts as bs

/-- Does the character list `needle` occur contiguously inside `hay`? -/
def charSub (needle : List Char) : List Char → Bool
  | [] => charStarts needle []
  | b :: bs => charStarts needle (b :: bs) || charSub needle bs

/-- Python's substring test `needle in hay` on strings. -/
def strContains (hay needle : String) : Bool :=
  charSub needle.toList hay.toList

/-- One row of the home game plan.  Schedule columns come from the scraped
online table (`get_onlineTable`), volunteer columns from the persisted job
schedule (`get_gameTable`).  Names are plain strings; contact cells can be
NaN in pandas, hence `PyVal`.  The `refereeStatus` field is the repurposed
result column (`_colScore`) whose text signals referee assignment. -/
structure GameRecord where
  gameNumber : Nat
  day : String
  date : String
  time : String
  hall : Nat
  category : String
  homeTeam : String
  guestTeam : String
  refereeStatus : String
  jTeam : String
  jMV : String
  mailJMV : PyVal
  judge1 : String
  mailJudge1 : PyVal
  judge2 : String
  mailJudge2 : PyVal
  shop1 : String
  mailShop1 : PyVal
  shop2 : String
  mailShop2 : PyVal
  security : String
  mailSecurity : PyVal
  cleaning : String
  mailCleaning : PyVal
deriving DecidableEq, Repr

/-- The volunteer column group (`_colJTeam` through `_colMailCleaning`),
the slice copied from the persisted table during the merge. -/
structure VolData where
  jTeam : String
  jMV : String
  mailJMV : PyVal
  judge1 : String
  mailJudge1 : PyVal
  judge2 : String
  mailJudge2 : PyVal
  shop1 : String
  mailShop1 : PyVal
  shop2 : String
  mailShop2 : PyVal
  security : String
  mailSecurity : PyVal
  cleaning : String
  mailCleaning : PyVal
deriving DecidableEq, Repr

/-- The schedule column group, owned by the scraped online table. -/
structure SchedData where
  day : String
  date : String
  time : String
  hall : Nat
  category : String
  homeTeam : String
  guestTeam : String
  refereeStatus : String
deriving DecidableEq, Repr

/-- Project the volunteer columns of a record. -/
def volData (r : GameRecord) : VolData :=
  ⟨r.jTeam, r.jMV, r.mailJMV, r.judge1, r.mailJudge1, r.judge2, r.mailJudge2,
   r.shop1, r.mailShop1, r.shop2, r.mailShop2, r.security, r.mailSecurity,
   r.cleaning, r.mailCleaning⟩

/-- Project the schedule columns of a record. -/
def schedData (r : GameRecord) : SchedData :=
  ⟨r.day, r.date, r.time, r.hall, r.category, r.homeTeam, r.guestTeam,
   r.refereeStatus⟩

/-- Overwrite the volunteer column slice of `r` with that of `p`: the
`onlineTable.loc[mask, _colJTeam:] = judges.values[0]` assignment. -/
def copyVols (p r : GameRecord) : GameRecord :=
  { r with
    jTeam := p.jTeam, jMV := p.jMV, mailJMV := p.mailJMV,
    judge1 := p.judge1, mailJudge1 := p.mailJudge1,
    judge2 := p.judge2, mailJudge2 := p.mailJudge2,
    shop1 := p.shop1, mailShop1 := p.mailShop1,
    shop2 := p.shop2, mailShop2 := p.mailShop2,
    security := p.security, mailSecurity := p.mailSecurity,
    cleaning := p.cleaning, mailCleaning := p.mailCleaning }

/-- `ScheduleShift` change event, produced by `datum_shift_handler`. -/
structure ShiftEvent where
  game : Nat
  oldDate : String
  oldTime : String
  newDate : String
  newTime : String
deriving DecidableEq, Repr

/-- `RefereeNewlyMissing` change event, produced by `no_referee_handler`. -/
structure RefEvent where
  game : Nat
  date : String
  time : String
deriving DecidableEq, Repr

/-- `datum_shift_handler`: fires (logs and sends the shift notification)
iff the new date or the new time differs from the old one.  The event value
records the arguments it would forward to `send_ShfitNotification`. -/
def datum_shift_handler (game : Nat) (oldDate oldTime newDate newTime : String) :
    Option ShiftEvent :=
  if newDate ≠ oldDate ∨ newTime ≠ oldTime then
    some ⟨game, oldDate, oldTime, newDate, newTime⟩
  else none

/-- `no_referee_handler`: fires (logs and sends the referee notification)
iff the referee status changed and the new status contains "Heim". -/
def no_referee_handler (game : Nat) (date time : String) (oldRef newRef : String) :
    Option RefEvent :=
  if newRef ≠ oldRef ∧ strContains newRef "Heim" then
    some ⟨game, date, time⟩
  else none

/-- `table.loc[table[_colNr] == game].values[0]`: the first row of `t`
whose game number is `g`, `none` when the positional read would raise
`IndexError`. -/
def lookupFirst (t : List GameRecord) (g : Nat) : Option GameRecord :=
  t.find? (fun r => r.gameNumber == g)

/-- Write the volunteer slice of `p` onto every row of `t` whose game
number is `g` (the `.loc[mask, _colJTeam:] = ...` broadcast). -/
def writeVols (t : List GameRecord) (g : Nat) (p : GameRecord) : List GameRecord :=
  t.map (fun r => if r.gameNumber == g then copyVols p r else r)

/-- The state `merge_tables` threads through its loop: the online table
being updated in place, the change events fired so far, the games that hit
the `IndexError` branch with a non-exempt category, and the `sendError`
flag driving the single aggregated operator email. -/
structure MergeResult where
  onlineTable : List GameRecord
  shiftEvents : List ShiftEvent
  refEvents : List RefEvent
  unmatched : List Nat
  sendError : Bool
deriving DecidableEq, Repr

/-- One iteration of the `merge_tables` loop for game number `game`:
look the game up in the persisted `gameTable`; if found, save the old
date/time/referee status, broadcast the volunteer slice onto the online
table, re-read the new values and run both change handlers; if not found
(`IndexError`), flag the game unless its category is the exempt "GE". -/
def mergeStep (gameTable : List GameRecord) (st : MergeResult) (game : Nat) :
    MergeResult :=
  match lookupFirst gameTable game with
  | some p =>
    let online2 := writeVols st.onlineTable game p
    match lookupFirst online2 game with
    | some n =>
      { st with
        onlineTable := online2,
        shiftEvents := st.shiftEvents ++
          (datum_shift_handler game p.date p.time n.date n.time).toList,
        refEvents := st.refEvents ++
          (no_referee_handler game n.date n.time p.refereeStatus n.refereeStatus).toList }
    | none => { st with onlineTable := online2 }
  | none =>
    match lookupFirst st.onlineTable game with
    | some n =>
      if n.category ≠ "GE" then
        { st with unmatched := st.unmatched ++ [game], sendError := true }
      else st
    | none => st

/-- `merge_tables`: iterate the merge step over every game number of the
online table (the loop `for game in self.onlineTable[self._colNr]`). -/
def merge_tables (onlineTable gameTable : List GameRecord) : MergeResult :=
  (onlineTable.map (fun r => r.gameNumber)).foldl (mergeStep gameTable)
    ⟨onlineTable, [], [], [], false⟩

/-- Number of aggregated operator error mails sent after the loop: exactly
one when `sendError` was set, none otherwise. -/
def operatorEmailCount (m : MergeResult) : Nat :=
  if m.sendError then 1 else 0

/-! ### Closed form of the merge loop -/

/-- What one online row looks like after the whole merge: its volunteer
slice replaced by that of the first matching persisted row, if any. -/
def mergedRow (gameTable : List GameRecord) (r : GameRecord) : GameRecord :=
  match lookupFirst gameTable r.gameNumber with
  | some p => copyVols p r
  | none => r

/-- Intermediate loop state: rows whose game number already went through
the loop (`L`) are merged, the rest are untouched. -/
def mergedRowUpto (gameTable : List GameRecord) (L : List Nat) (r : GameRecord) :
    GameRecord :=
  if r.gameNumber ∈ L then mergedRow gameTable r else r

/-- The shift event the loop iteration for game `g` fires. -/
def shiftEventFor (onlineTable gameTable : List GameRecord) (g : Nat) :
    Option ShiftEvent :=
  match lookupFirst gameTable g, lookupFirst onlineTable g with
  | some p, some n => datum_shift_handler g p.date p.time n.date n.time
  | _, _ => none

/-- The referee event the loop iteration for game `g` fires. -/
def refEventFor (onlineTable gameTable : List GameRecord) (g : Nat) :
    Option RefEvent :=
  match lookupFirst gameTable g, lookupFirst onlineTable g with
  | some p, some n =>
    no_referee_handler g n.date n.time p.refereeStatus n.refereeStatus
  | _, _ => none

/-- Does the loop iteration for game `g` hit the non-exempt `IndexError`
branch? -/
def unmatchedPred (onlineTable gameTable : List GameRecord) (g : Nat) : Bool :=
  (lookupFirst gameTable g).isNone &&
    (match lookupFirst onlineTable g with
     | some n => decide (n.category ≠ "GE")
     | none => false)

theorem copyVols_gameNumber (p r : GameRecord) :
    (copyVols p r).gameNumber = r.gameNumber := rfl

theorem schedData_copyVols (p r : GameRecord) :
    schedData (copyVols p r) = schedData r := rfl

theorem volData_copyVols (p r : GameRecord) :
    volData (copyVols p r) = volData p := rfl

theorem copyVols_copyVols (p q r : GameRecord) :
    copyVols p (copyVols q r) = copyVols p r := rfl

theorem copyVols_self (r : GameRecord) : copyVols r r = r := rfl

theorem mergedRow_gameNumber (gt : List GameRecord) (r : GameRecord) :
    (mergedRow gt r).gameNumber = r.gameNumber := by
  unfold mergedRow
  cases lookupFirst gt r.gameNumber <;> rfl

theorem schedData_mergedRow (gt : List GameRecord) (r : GameRecord) :
    schedData (mergedRow gt r) = schedData r := by
  unfold mergedRow
  cases lookupFirst gt r.gameNumber <;> rfl

theorem mergedRowUpto_gameNumber (gt : List GameRecord) (L : List Nat)
    (r : GameRecord) : (mergedRowUpto gt L r).gameNumber = r.gameNumber := by
  unfold mergedRowUpto
  split
  · exact mergedRow_gameNumber gt r
  · rfl

theorem schedData_mergedRowUpto (gt : List GameRecord) (L : List Nat)
    (r : GameRecord) : schedData (mergedRowUpto gt L r) = schedData r := by
  unfold mergedRowUpto
  split
  · exact schedData_mergedRow gt r
  · rfl

theorem mergedRowUpto_date (gt : List GameRecord) (L : List Nat)
    (r : GameRecord) : (mergedRowUpto gt L r).date = r.date :=
  congrArg SchedData.date (schedData_mergedRowUpto gt L r)

theorem mergedRowUpto_time (gt : List GameRecord) (L : List Nat)
    (r : GameRecord) : (mergedRowUpto gt L r).time = r.time :=
  congrArg SchedData.time (schedData_mergedRowUpto gt L r)

theorem mergedRowUpto_refereeStatus (gt : List GameRecord) (L : List Nat)
    (r : GameRecord) : (mergedRowUpto gt L r).refereeStatus = r.refereeStatus :=
  congrArg SchedData.refereeStatus (schedData_mergedRowUpto gt L r)

theorem mergedRowUpto_category (gt : List GameRecord) (L : List Nat)
    (r : GameRecord) : (mergedRowUpto gt L r).category = r.category :=
  congrArg SchedData.category (schedData_mergedRowUpto gt L r)

/-- Positional lookup commutes with mapping a game-number-preserving
function over the table. -/
theorem lookupFirst_map (o : List GameRecord) (f : GameRecord → GameRecord)
    (hf : ∀ r, (f r).gameNumber = r.gameNumber) (g : Nat) :
    lookupFirst (o.map f) g = (lookupFirst o g).map f := by
  unfold lookupFirst
  rw [List.find?_map]
  have hpred : ((fun r : GameRecord => r.gameNumber == g) ∘ f) =
      (fun r : GameRecord => r.gameNumber == g) := by
    funext r
    simp [Function.comp, hf r]
  rw [hpred]

theorem lookupFirst_eq_none_iff (o : List GameRecord) (g : Nat) :
    lookupFirst o g = none ↔ ∀ r ∈ o, r.gameNumber ≠ g := by
  unfold lookupFirst
  rw [List.find?_eq_none]
  simp

theorem lookupFirst_gameNumber {o : List GameRecord} {g : Nat} {r : GameRecord}
    (h : lookupFirst o g = some r) : r.gameNumber = g := by
  have h1 := List.find?_some h
  simpa using h1

theorem lookupFirst_mem {o : List GameRecord} {g : Nat} {r : GameRecord}
    (h : lookupFirst o g = some r) : r ∈ o :=
  List.mem_of_find?_eq_some h

/-- Under the game-number uniqueness invariant, positional lookup returns
exactly the member with that number. -/
theorem lookupFirst_eq_of_nodup {o : List GameRecord} {g : Nat} {r : GameRecord}
    (hu : (o.map (fun x => x.gameNumber)).Nodup) (hr : r ∈ o)
    (hg : r.gameNumber = g) : lookupFirst o g = some r := by
  have hsome : (lookupFirst o g).isSome := by
    unfold lookupFirst
    rw [List.find?_isSome]
    exact ⟨r, hr, by simp [hg]⟩
  obtain ⟨q, hq⟩ := Option.isSome_iff_exists.mp hsome
  have hqmem : q ∈ o := lookupFirst_mem hq
  have hqg : q.gameNumber = g := lookupFirst_gameNumber hq
  have : q = r := List.inj_on_of_nodup_map hu hqmem hr (by rw [hqg, hg])
  rw [hq, this]

theorem filterMap_cons_toList {α β : Type} (f : α → Option β) (a : α) (l : List α) :
    (f a).toList ++ l.filterMap f = (a :: l).filterMap f := by
  rw [List.filterMap_cons]
  cases f a <;> simp

/-- Broadcasting the volunteer slice of the looked-up persisted row marks
one more game number as merged. -/
theorem writeVols_mergedRowUpto (o gt : List GameRecord) (L : List Nat) (g : Nat)
    (p : GameRecord) (hp : lookupFirst gt g = some p) :
    writeVols (o.map (mergedRowUpto gt L)) g p =
      o.map (mergedRowUpto gt (L ++ [g])) := by
  unfold writeVols
  rw [List.map_map]
  apply List.map_congr_left
  intro r _
  simp only [Function.comp]
  rw [mergedRowUpto_gameNumber]
  by_cases hg : r.gameNumber = g
  · rw [if_pos (by simp [hg])]
    have hRHS : mergedRowUpto gt (L ++ [g]) r = copyVols p r := by
      unfold mergedRowUpto mergedRow
      rw [if_pos (by simp [hg]), hg, hp]
    rw [hRHS]
    by_cases hL : r.gameNumber ∈ L
    · have hbody : mergedRowUpto gt L r = copyVols p r := by
        unfold mergedRowUpto mergedRow
        rw [if_pos hL, hg, hp]
      rw [hbody, copyVols_copyVols]
    · have hbody : mergedRowUpto gt L r = r := by
        unfold mergedRowUpto
        rw [if_neg hL]
      rw [hbody]
  · rw [if_neg (by simp [hg])]
    unfold mergedRowUpto
    apply if_congr _ rfl rfl
    simp [hg]

/-- Two merged-prefix maps agree when every row either has the same
membership status or is unaffected by merging. -/
theorem map_mergedRowUpto_congr (gt o : List GameRecord) (L1 L2 : List Nat)
    (h : ∀ r ∈ o, ((r.gameNumber ∈ L1) ↔ (r.gameNumber ∈ L2)) ∨
      mergedRow gt r = r) :
    o.map (mergedRowUpto gt L1) = o.map (mergedRowUpto gt L2) := by
  apply List.map_congr_left
  intro r hr
  unfold mergedRowUpto
  rcases h r hr with hiff | heq
  · rw [if_congr hiff rfl rfl]
  · have e1 : (if r.gameNumber ∈ L1 then mergedRow gt r else r) = r := by
      split
      · exact heq
      · rfl
    have e2 : (if r.gameNumber ∈ L2 then mergedRow gt r else r) = r := by
      split
      · exact heq
      · rfl
    rw [e1, e2]

theorem mergeStep_matched (gt ot : List GameRecord) (es : List ShiftEvent)
    (rs : List RefEvent) (us : List Nat) (b : Bool) (g : Nat) (p n : GameRecord)
    (hp : lookupFirst gt g = some p)
    (hn : lookupFirst (writeVols ot g p) g = some n) :
    mergeStep gt ⟨ot, es, rs, us, b⟩ g =
      ⟨writeVols ot g p,
       es ++ (datum_shift_handler g p.date p.time n.date n.time).toList,
       rs ++ (no_referee_handler g n.date n.time p.refereeStatus
         n.refereeStatus).toList,
       us, b⟩ := by
  unfold mergeStep
  rw [hp]
  dsimp only
  rw [hn]

theorem mergeStep_matched_none (gt ot : List GameRecord) (es : List ShiftEvent)
    (rs : List RefEvent) (us : List Nat) (b : Bool) (g : Nat) (p : GameRecord)
    (hp : lookupFirst gt g = some p)
    (hn : lookupFirst (writeVols ot g p) g = none) :
    mergeStep gt ⟨ot, es, rs, us, b⟩ g = ⟨writeVols ot g p, es, rs, us, b⟩ := by
  unfold mergeStep
  rw [hp]
  dsimp only
  rw [hn]

theorem mergeStep_unmatched_some (gt ot : List GameRecord) (es : List ShiftEvent)
    (rs : List RefEvent) (us : List Nat) (b : Bool) (g : Nat) (n : GameRecord)
    (hp : lookupFirst gt g = none) (hn : lookupFirst ot g = some n) :
    mergeStep gt ⟨ot, es, rs, us, b⟩ g =
      (if n.category ≠ "GE" then ⟨ot, es, rs, us ++ [g], true⟩
       else ⟨ot, es, rs, us, b⟩) := by
  unfold mergeStep
  rw [hp]
  dsimp only
  rw [hn]

theorem mergeStep_unmatched_none (gt ot : List GameRecord)
    (es : List ShiftEvent) (rs : List RefEvent) (us : List Nat) (b : Bool)
    (g : Nat) (hp : lookupFirst gt g = none) (hn : lookupFirst ot g = none) :
    mergeStep gt ⟨ot, es, rs, us, b⟩ g = ⟨ot, es, rs, us, b⟩ := by
  unfold mergeStep
  rw [hp]
  dsimp only
  rw [hn]

/-- The merge loop in closed form: folding the step over any list of game
numbers merges those numbers into the online table and appends exactly the
events, unmatched games and error flag predicted by the per-game
functions. -/
theorem foldl_mergeStep (gt o : List GameRecord) :
    ∀ (M L : List Nat) (es : List ShiftEvent) (rs : List RefEvent)
      (us : List Nat) (b : Bool),
    M.foldl (mergeStep gt) ⟨o.map (mergedRowUpto gt L), es, rs, us, b⟩ =
      ⟨o.map (mergedRowUpto gt (L ++ M)),
       es ++ M.filterMap (shiftEventFor o gt),
       rs ++ M.filterMap (refEventFor o gt),
       us ++ M.filter (unmatchedPred o gt),
       b || !(M.filter (unmatchedPred o gt)).isEmpty⟩ := by
  intro M
  induction M with
  | nil =>
    intro L es rs us b
    simp
  | cons g M' ih =>
    intro L es rs us b
    rw [List.foldl_cons]
    cases hgt : lookupFirst gt g with
    | some p =>
      have hw := writeVols_mergedRowUpto o gt L g p hgt
      have hlk : lookupFirst (o.map (mergedRowUpto gt (L ++ [g]))) g =
          (lookupFirst o g).map (mergedRowUpto gt (L ++ [g])) :=
        lookupFirst_map o _ (fun r => mergedRowUpto_gameNumber gt _ r) g
      have hpred : unmatchedPred o gt g = false := by
        unfold unmatchedPred
        rw [hgt]
        rfl
      cases ho : lookupFirst o g with
      | some n0 =>
        have hn : lookupFirst (writeVols (o.map (mergedRowUpto gt L)) g p) g =
            some (mergedRowUpto gt (L ++ [g]) n0) := by
          rw [hw, hlk, ho]
          rfl
        rw [mergeStep_matched gt _ es rs us b g p _ hgt hn, hw,
          mergedRowUpto_date, mergedRowUpto_time, mergedRowUpto_refereeStatus,
          ih (L ++ [g])]
        have hse : shiftEventFor o gt g =
            datum_shift_handler g p.date p.time n0.date n0.time := by
          unfold shiftEventFor
          rw [hgt, ho]
        have hre : refEventFor o gt g =
            no_referee_handler g n0.date n0.time p.refereeStatus
              n0.refereeStatus := by
          unfold refEventFor
          rw [hgt, ho]
        rw [List.append_assoc es, ← hse, filterMap_cons_toList,
          List.append_assoc rs, ← hre, filterMap_cons_toList,
          List.append_assoc L, List.singleton_append,
          List.filter_cons_of_neg (by simp [hpred])]
      | none =>
        have hn : lookupFirst (writeVols (o.map (mergedRowUpto gt L)) g p) g =
            none := by
          rw [hw, hlk, ho]
          rfl
        rw [mergeStep_matched_none gt _ es rs us b g p hgt hn, hw,
          ih (L ++ [g])]
        have hse : shiftEventFor o gt g = none := by
          unfold shiftEventFor
          rw [hgt, ho]
        have hre : refEventFor o gt g = none := by
          unfold refEventFor
          rw [hgt, ho]
        rw [List.filterMap_cons, hse, List.filterMap_cons, hre,
          List.append_assoc L, List.singleton_append,
          List.filter_cons_of_neg (by simp [hpred])]
    | none =>
      have hlk : lookupFirst (o.map (mergedRowUpto gt L)) g =
          (lookupFirst o g).map (mergedRowUpto gt L) :=
        lookupFirst_map o _ (fun r => mergedRowUpto_gameNumber gt _ r) g
      have hse : shiftEventFor o gt g = none := by
        unfold shiftEventFor
        rw [hgt]
      have hre : refEventFor o gt g = none := by
        unfold refEventFor
        rw [hgt]
      have hmap : o.map (mergedRowUpto gt (L ++ g :: M')) =
          o.map (mergedRowUpto gt (L ++ M')) := by
        apply map_mergedRowUpto_congr
        intro r hr
        by_cases hg : r.gameNumber = g
        · right
          unfold mergedRow
          rw [hg, hgt]
        · left
          simp [hg]
      cases ho : lookupFirst o g with
      | some n0 =>
        have hn : lookupFirst (o.map (mergedRowUpto gt L)) g =
            some (mergedRowUpto gt L n0) := by
          rw [hlk, ho]
          rfl
        rw [mergeStep_unmatched_some gt _ es rs us b g _ hgt hn]
        have hpred : unmatchedPred o gt g = decide (n0.category ≠ "GE") := by
          unfold unmatchedPred
          rw [hgt, ho]
          simp
        by_cases hcat : n0.category ≠ "GE"
        · rw [if_pos (by rwa [mergedRowUpto_category]), ih L]
          rw [List.filterMap_cons, hse, List.filterMap_cons, hre,
            List.filter_cons_of_pos (by simp [hpred, hcat]), hmap]
          simp [List.append_assoc]
        · rw [if_neg (by rw [mergedRowUpto_category]; exact hcat), ih L]
          rw [List.filterMap_cons, hse, List.filterMap_cons, hre,
            List.filter_cons_of_neg (by simp [hpred, hcat]), hmap]
      | none =>
        have hn : lookupFirst (o.map (mergedRowUpto gt L)) g = none := by
          rw [hlk, ho]
          rfl
        rw [mergeStep_unmatched_none gt _ es rs us b g hgt hn, ih L]
        have hpred : unmatchedPred o gt g = false := by
          unfold unmatchedPred
          rw [hgt, ho]
          simp
        rw [List.filterMap_cons, hse, List.filterMap_cons, hre,
          List.filter_cons_of_neg (by simp [hpred]), hmap]

/-- `merge_tables` in closed form: the merged table is the online table
with volunteer slices filled in row by row, the events are those predicted
per game number, the unmatched list collects the non-exempt lookup
failures, and the error mail fires exactly when that list is nonempty. -/
theorem merge_tables_decomp (o gt : List GameRecord) :
    merge_tables o gt =
      ⟨o.map (mergedRow gt),
       (o.map (fun r => r.gameNumber)).filterMap (shiftEventFor o gt),
       (o.map (fun r => r.gameNumber)).filterMap (refEventFor o gt),
       (o.map (fun r => r.gameNumber)).filter (unmatchedPred o gt),
       !((o.map (fun r => r.gameNumber)).filter
           (unmatchedPred o gt)).isEmpty⟩ := by
  unfold merge_tables
  have h0 : o.map (mergedRowUpto gt []) = o := by
    conv_rhs => rw [← List.map_id o]
    apply List.map_congr_left
    intro r _
    unfold mergedRowUpto
    rw [if_neg (by simp)]
    rfl
  have hstate : (⟨o, [], [], [], false⟩ : MergeResult) =
      ⟨o.map (mergedRowUpto gt []), [], [], [], false⟩ := by
    rw [h0]
  rw [hstate, foldl_mergeStep gt o (o.map (fun r => r.gameNumber)) [] [] [] [] false]
  have hfin : o.map (mergedRowUpto gt ([] ++ o.map (fun r => r.gameNumber))) =
      o.map (mergedRow gt) := by
    apply List.map_congr_left
    intro r hr
    unfold mergedRowUpto
    rw [if_pos]
    simp only [List.nil_append]
    exact List.mem_map.mpr ⟨r, hr, rfl⟩
  rw [hfin]
  simp

/-! ### Notification dispatch -/

/-- The two message transports behind the collaborators `send_Mail` and
`send_SMS`. -/
inductive Transport where
  | email
  | sms
deriving DecidableEq, Repr

/-- Outcome of handling one candidate recipient: a message handed to a
transport, a skip with a logged warning (string contact with neither "@"
nor "+"), or a silent skip (the outer `type(...) == str` check fails and
the code has no matching `else`, so nothing is logged). -/
inductive DispatchResult where
  | sent (t : Transport)
  | skippedWarn
  | skippedSilent
deriving DecidableEq, Repr

/-- Contact sniffing of the job receiver loop in `send_Notifications`. -/
def taskDispatch (mail : PyVal) : DispatchResult :=
  match mail with
  | .pstr s =>
    if strContains s "@" then .sent .email
    else if strContains s "+" then .sent .sms
    else .skippedWarn
  | _ => .skippedSilent

/-- Contact sniffing of the team-liaison (MV) branch in
`send_Notifications`. -/
def mvDispatch (mail : PyVal) : DispatchResult :=
  match mail with
  | .pstr s =>
    if strContains s "@" then .sent .email
    else if strContains s "+" then .sent .sms
    else .skippedWarn
  | _ => .skippedSilent

/-- Contact sniffing of the coordinator loop in `send_RefNotification`. -/
def refCoordDispatch (address : PyVal) : DispatchResult :=
  match address with
  | .pstr s =>
    if strContains s "@" then .sent .email
    else if strContains s "+" then .sent .sms
    else .skippedWarn
  | _ => .skippedSilent

/-- Contact sniffing of the receiver loop in `send_ServiceNotifications`. -/
def serviceDispatch (mail : PyVal) : DispatchResult :=
  match mail with
  | .pstr s =>
    if strContains s "@" then .sent .email
    else if strContains s "+" then .sent .sms
    else .skippedWarn
  | _ => .skippedSilent

/-- Contact sniffing of the receiver loop in `send_PreNotifications`. -/
def preTaskDispatch (mail : PyVal) : DispatchResult :=
  match mail with
  | .pstr s =>
    if strContains s "@" then .sent .email
    else if strContains s "+" then .sent .sms
    else .skippedWarn
  | _ => .skippedSilent

/-- Contact sniffing of the receiver loop in `send_ShfitNotification`. -/
def shiftDispatch (mail : PyVal) : DispatchResult :=
  match mail with
  | .pstr s =>
    if strContains s "@" then .sent .email
    else if strContains s "+" then .sent .sms
    else .skippedWarn
  | _ => .skippedSilent

/-- The volunteer roles a record carries contacts for.  The task labels in
the source are the configured column names; the role tags stand in for
them. -/
inductive Role where
  | judge1
  | judge2
  | shop1
  | shop2
  | security
  | cleaning
  | teamLiaison
deriving DecidableEq, Repr

/-- One entry of the `receivers` list the dispatch loops build. -/
structure Receiver where
  name : String
  mail : PyVal
  role : Role
deriving DecidableEq, Repr

/-- The six job receivers `send_Notifications` builds per game, in source
order. -/
def taskReceivers (r : GameRecord) : List Receiver :=
  [⟨r.judge1, r.mailJudge1, Role.judge1⟩,
   ⟨r.judge2, r.mailJudge2, Role.judge2⟩,
   ⟨r.shop1, r.mailShop1, Role.shop1⟩,
   ⟨r.shop2, r.mailShop2, Role.shop2⟩,
   ⟨r.security, r.mailSecurity, Role.security⟩,
   ⟨r.cleaning, r.mailCleaning, Role.cleaning⟩]

/-- The receivers `send_ShfitNotification` builds: the same six job roles,
with no team-liaison entry. -/
def shiftReceivers (r : GameRecord) : List Receiver :=
  [⟨r.judge1, r.mailJudge1, Role.judge1⟩,
   ⟨r.judge2, r.mailJudge2, Role.judge2⟩,
   ⟨r.shop1, r.mailShop1, Role.shop1⟩,
   ⟨r.shop2, r.mailShop2, Role.shop2⟩,
   ⟨r.security, r.mailSecurity, Role.security⟩,
   ⟨r.cleaning, r.mailCleaning, Role.cleaning⟩]

/-- What `send_Notifications` does for one matched record: run the
receiver loop over all six job roles, then the MV branch.  Skips never
stop the loop. -/
def gameDispatchLog (r : GameRecord) : List (Role × DispatchResult) :=
  (taskReceivers r).map (fun rcv => (rcv.role, taskDispatch rcv.mail)) ++
    [(Role.teamLiaison, mvDispatch r.mailJMV)]

/-- The record selection shared by the date-filtered dispatchers:
rows on the given date whose guest is not the bye marker "spielfrei"
(the `dropna(how="all")` drops rows with every cell NaN, which cannot
arise in this typed model). -/
def noteTableFor (gameTable : List GameRecord) (date : String) :
    List GameRecord :=
  gameTable.filter (fun r => r.date == date && r.guestTeam != "spielfrei")

/-- `send_Notifications`: for every game number of the selected rows, look
the first matching row up and dispatch to its receivers; each log entry
names the game (as the warnings in the source do). -/
def send_Notifications (gameTable : List GameRecord) (date : String) :
    List (Nat × Role × DispatchResult) :=
  (noteTableFor gameTable date).flatMap (fun r0 =>
    match lookupFirst (noteTableFor gameTable date) r0.gameNumber with
    | some r => (gameDispatchLog r).map (fun e => (r0.gameNumber, e.1, e.2))
    | none => [])

/-- The dispatch counter `cnt`: one increment per message handed to a
transport. -/
def sentCount (log : List (Role × DispatchResult)) : Nat :=
  log.countP (fun e => match e.2 with
    | DispatchResult.sent _ => true
    | _ => false)

/-- A contact that actually reaches a transport: a string containing "@"
or "+". -/
def validContact (m : PyVal) : Bool :=
  match m with
  | .pstr s => strContains s "@" || strContains s "+"
  | _ => false

/-- The seven contact cells of a record, in the order the dispatch loop
visits them. -/
def contactsOf (r : GameRecord) : List PyVal :=
  [r.mailJudge1, r.mailJudge2, r.mailShop1, r.mailShop2, r.mailSecurity,
   r.mailCleaning, r.mailJMV]

/-- `send_ShfitNotification`: select by the bye marker only (no date
filter), look the shifted game up, dispatch to the six job receivers.
`none` models the `IndexError` the `.values[0]` read raises when the game
is absent. -/
def send_ShfitNotification (gameTable : List GameRecord) (game : Nat) :
    Option (List (Role × DispatchResult)) :=
  match lookupFirst (gameTable.filter (fun r => r.guestTeam != "spielfrei"))
      game with
  | some r => some ((shiftReceivers r).map (fun rcv =>
      (rcv.role, shiftDispatch rcv.mail)))
  | none => none

/-! ### Newspaper digest -/

/-- One line of the newspaper schedule text. -/
inductive ArticleLine where
  | miTournament (time : String)
  | geTournament (time : String)
  | single (team home guest time : String)
deriving DecidableEq, Repr

/-- The category-to-display-name mapping of `send_Article`. -/
def articleTeam (ak : String) : String :=
  if ak == "F" then "Damen" else if ak == "M" then "Herren" else ak

/-- Loop state of the schedule-building loop in `send_Article`. -/
structure ArticleAcc where
  lines : List ArticleLine
  cnt : Nat
  tournamentMI : Bool
  tournamentGE : Bool
deriving DecidableEq, Repr

/-- One iteration of the schedule loop.  The third guard transcribes the
source's `("GE" or "MI") != team[i]`, which Python evaluates as
`"GE" != team[i]` because `("GE" or "MI")` short-circuits to `"GE"`. -/
def articleStep (acc : ArticleAcc) (row : String × String × String × String) :
    ArticleAcc :=
  match row with
  | (team, home, guest, time) =>
    if team == "MI" && !acc.tournamentMI then
      { acc with
        lines := acc.lines ++ [ArticleLine.miTournament time],
        cnt := acc.cnt + 1,
        tournamentMI := true }
    else if team == "GE" && !acc.tournamentGE then
      { acc with
        lines := acc.lines ++ [ArticleLine.geTournament time],
        cnt := acc.cnt + 1,
        tournamentGE := true }
    else if "GE" != team then
      { acc with
        lines := acc.lines ++ [ArticleLine.single team home guest time],
        cnt := acc.cnt + 1 }
    else acc

/-- `send_Article`: select the date's rows, build the per-row
(team, home, guest, time) data via first-match lookups, run the schedule
loop, return the lines and the count the function returns. -/
def send_Article (gameTable : List GameRecord) (date : String) :
    List ArticleLine × Nat :=
  let noteTable := noteTableFor gameTable date
  let rows := noteTable.map (fun r0 =>
    match lookupFirst noteTable r0.gameNumber with
    | some r => (articleTeam r.category, r.homeTeam, r.guestTeam, r.time)
    | none => (articleTeam r0.category, r0.homeTeam, r0.guestTeam, r0.time))
  let acc := rows.foldl articleStep ⟨[], 0, false, false⟩
  (acc.lines, acc.cnt)

/-! ### The tomorrow referee check in the main program -/

/-- The parameter list of `send_RefNotification` as defined:
`(self, game, date, time)`. -/
def send_RefNotification_params : List String := ["game", "date", "time"]

/-- The positional arguments the main program's tomorrow referee check
passes: `nlh.send_RefNotification(strTomorrow)` — the date string alone,
in the `game` slot. -/
def mainTomorrowRefCallArgs (strTomorrow : String) : List PyVal :=
  [PyVal.pstr strTomorrow]

/-! ### Component views of the merge result -/

theorem merge_onlineTable_eq (o gt : List GameRecord) :
    (merge_tables o gt).onlineTable = o.map (mergedRow gt) := by
  rw [merge_tables_decomp]

theorem merge_shiftEvents_eq (o gt : List GameRecord) :
    (merge_tables o gt).shiftEvents =
      (o.map (fun r => r.gameNumber)).filterMap (shiftEventFor o gt) := by
  rw [merge_tables_decomp]

theorem merge_refEvents_eq (o gt : List GameRecord) :
    (merge_tables o gt).refEvents =
      (o.map (fun r => r.gameNumber)).filterMap (refEventFor o gt) := by
  rw [merge_tables_decomp]

theorem merge_unmatched_eq (o gt : List GameRecord) :
    (merge_tables o gt).unmatched =
      (o.map (fun r => r.gameNumber)).filter (unmatchedPred o gt) := by
  rw [merge_tables_decomp]

theorem merge_sendError_eq (o gt : List GameRecord) :
    (merge_tables o gt).sendError =
      !((o.map (fun r => r.gameNumber)).filter (unmatchedPred o gt)).isEmpty := by
  rw [merge_tables_decomp]

theorem isEmpty_eq_false_of_mem {α : Type} {a : α} {l : List α} (h : a ∈ l) :
    l.isEmpty = false := by
  cases l
  · cases h
  · rfl

/-- Inversion: what it takes for the loop iteration of game `a` to fire a
shift event, and what the event then contains. -/
theorem shiftEventFor_inv {o gt : List GameRecord} {a : Nat} {ev : ShiftEvent}
    (h : shiftEventFor o gt a = some ev) :
    ev.game = a ∧ ∃ p n, lookupFirst gt a = some p ∧ lookupFirst o a = some n ∧
      (n.date ≠ p.date ∨ n.time ≠ p.time) ∧
      ev.oldDate = p.date ∧ ev.oldTime = p.time ∧
      ev.newDate = n.date ∧ ev.newTime = n.time := by
  unfold shiftEventFor at h
  split at h
  · rename_i p n hp hn
    unfold datum_shift_handler at h
    split at h
    · rename_i hcond
      injection h with h2
      subst h2
      exact ⟨rfl, p, n, hp, hn, hcond, rfl, rfl, rfl, rfl⟩
    · exact Option.noConfusion h
  · exact Option.noConfusion h

/-- Inversion for referee events. -/
theorem refEventFor_inv {o gt : List GameRecord} {a : Nat} {ev : RefEvent}
    (h : refEventFor o gt a = some ev) :
    ev.game = a ∧ ∃ p n, lookupFirst gt a = some p ∧ lookupFirst o a = some n ∧
      n.refereeStatus ≠ p.refereeStatus ∧
      strContains n.refereeStatus "Heim" = true ∧
      ev.date = n.date ∧ ev.time = n.time := by
  unfold refEventFor at h
  split at h
  · rename_i p n hp hn
    unfold no_referee_handler at h
    split at h
    · rename_i hcond
      injection h with h2
      subst h2
      exact ⟨rfl, p, n, hp, hn, hcond.1, hcond.2, rfl, rfl⟩
    · exact Option.noConfusion h
  · exact Option.noConfusion h

/-! ### Concrete records for witnesses and counterexamples -/

/-- A neutral record all concrete examples below are variations of. -/
def baseRec : GameRecord :=
  { gameNumber := 0
    day := "Sa"
    date := "01.05.2025"
    time := "18:00"
    hall := 1
    category := "F"
    homeTeam := "TSV Heim"
    guestTeam := "TSV Gast"
    refereeStatus := "\t"
    jTeam := ""
    jMV := ""
    mailJMV := PyVal.pstr ""
    judge1 := ""
    mailJudge1 := PyVal.pstr ""
    judge2 := ""
    mailJudge2 := PyVal.pstr ""
    shop1 := ""
    mailShop1 := PyVal.pstr ""
    shop2 := ""
    mailShop2 := PyVal.pstr ""
    security := ""
    mailSecurity := PyVal.pstr ""
    cleaning := ""
    mailCleaning := PyVal.pstr "" }

/-! ### C1 -/

/-- C1: for every game number present in both tables, the merged rows with
that number carry exactly the persisted row's volunteer fields, while
every merged row keeps the online table's schedule fields and game number
(and a merged row with that number exists). -/
theorem C1_merge_preserves_fields (o gt : List GameRecord) (g : Nat)
    (p : GameRecord)
    (hu : (gt.map (fun x => x.gameNumber)).Nodup)
    (hp : p ∈ gt) (hpg : p.gameNumber = g)
    (ho : ∃ r ∈ o, r.gameNumber = g) :
    (∀ m ∈ (merge_tables o gt).onlineTable, m.gameNumber = g →
      volData m = volData p)
    ∧ (merge_tables o gt).onlineTable.map schedData = o.map schedData
    ∧ (merge_tables o gt).onlineTable.map (fun m => m.gameNumber) =
      o.map (fun m => m.gameNumber)
    ∧ (∃ m ∈ (merge_tables o gt).onlineTable, m.gameNumber = g) := by
  have hlk : lookupFirst gt g = some p := lookupFirst_eq_of_nodup hu hp hpg
  rw [merge_onlineTable_eq]
  refine ⟨?_, ?_, ?_, ?_⟩
  · intro m hm hmg
    obtain ⟨r0, hr0, rfl⟩ := List.mem_map.mp hm
    rw [mergedRow_gameNumber] at hmg
    have hrow : mergedRow gt r0 = copyVols p r0 := by
      unfold mergedRow
      rw [hmg, hlk]
    rw [hrow, volData_copyVols]
  · rw [List.map_map]
    apply List.map_congr_left
    intro r _
    exact schedData_mergedRow gt r
  · rw [List.map_map]
    apply List.map_congr_left
    intro r _
    exact mergedRow_gameNumber gt r
  · obtain ⟨r, hr, hrg⟩ := ho
    exact ⟨mergedRow gt r, List.mem_map.mpr ⟨r, hr, rfl⟩,
      by rw [mergedRow_gameNumber, hrg]⟩

def recC1o : GameRecord := { baseRec with gameNumber := 101 }

def recC1p : GameRecord :=
  { baseRec with
    gameNumber := 101
    judge1 := "Alice"
    mailJudge1 := PyVal.pstr "alice@x.test" }

theorem C1_witness :
    (merge_tables [recC1o] [recC1p]).onlineTable.map schedData =
      [recC1o].map schedData ∧
    (merge_tables [recC1o] [recC1p]).onlineTable.map (fun m => m.gameNumber) =
      [recC1o].map (fun m => m.gameNumber) :=
  ⟨(C1_merge_preserves_fields [recC1o] [recC1p] 101 recC1p (by decide)
      (by decide) rfl ⟨recC1o, by decide, rfl⟩).2.1,
   (C1_merge_preserves_fields [recC1o] [recC1p] 101 recC1p (by decide)
      (by decide) rfl ⟨recC1o, by decide, rfl⟩).2.2.1⟩

/-! ### C2 -/

/-- C2: reconciling a table against itself yields no shift events, no
referee events, no unmatched games, no error flag, and leaves the table
unchanged (given the game-number uniqueness invariant). -/
theorem C2_reconcile_idempotent (t : List GameRecord)
    (hu : (t.map (fun x => x.gameNumber)).Nodup) :
    merge_tables t t = ⟨t, [], [], [], false⟩ := by
  have hmap : t.map (mergedRow t) = t := by
    conv_rhs => rw [← List.map_id t]
    apply List.map_congr_left
    intro r hr
    unfold mergedRow
    rw [lookupFirst_eq_of_nodup hu hr rfl]
    exact copyVols_self r
  have hshift : (t.map (fun r => r.gameNumber)).filterMap
      (shiftEventFor t t) = [] := by
    rw [List.filterMap_eq_nil_iff]
    intro g hg
    obtain ⟨r, hr, rfl⟩ := List.mem_map.mp hg
    unfold shiftEventFor
    cases hl : lookupFirst t r.gameNumber
    · rfl
    · simp [datum_shift_handler]
  have href : (t.map (fun r => r.gameNumber)).filterMap
      (refEventFor t t) = [] := by
    rw [List.filterMap_eq_nil_iff]
    intro g hg
    obtain ⟨r, hr, rfl⟩ := List.mem_map.mp hg
    unfold refEventFor
    cases hl : lookupFirst t r.gameNumber
    · rfl
    · simp [no_referee_handler]
  have hfil : (t.map (fun r => r.gameNumber)).filter
      (unmatchedPred t t) = [] := by
    rw [List.filter_eq_nil_iff]
    intro g hg
    obtain ⟨r, hr, rfl⟩ := List.mem_map.mp hg
    unfold unmatchedPred
    rw [lookupFirst_eq_of_nodup hu hr rfl]
    simp
  rw [merge_tables_decomp, hmap, hshift, href, hfil]
  rfl

theorem C2_witness : merge_tables [baseRec] [baseRec] =
    ⟨[baseRec], [], [], [], false⟩ :=
  C2_reconcile_idempotent [baseRec] (by decide)

/-! ### C3 -/

/-- C3: the referee-gap detector fires iff the status changed and the new
status contains "Heim"; in particular an unchanged status never fires, and
a transition from a non-"Heim" status to a "Heim" status always fires. -/
theorem C3_referee_gap_detector : ∀ (g : Nat) (d tm oldR newR s : String),
    (((no_referee_handler g d tm oldR newR).isSome = true) ↔
      (newR ≠ oldR ∧ strContains newR "Heim" = true))
    ∧ no_referee_handler g d tm s s = none
    ∧ (strContains oldR "Heim" = false → strContains newR "Heim" = true →
      (no_referee_handler g d tm oldR newR).isSome = true) := by
  intro g d tm oldR newR s
  refine ⟨?_, ?_, ?_⟩
  · unfold no_referee_handler
    split
    · rename_i h
      exact iff_of_true (by simp) h
    · rename_i h
      exact iff_of_false (by simp) h
  · simp [no_referee_handler]
  · intro h1 h2
    have hne : newR ≠ oldR := by
      intro he
      rw [he, h1] at h2
      exact absurd h2 (by decide)
    unfold no_referee_handler
    rw [if_pos ⟨hne, h2⟩]
    rfl

theorem C3_witness :
    (no_referee_handler 101 "02.05.2025" "18:00" "\t" "Heim\t").isSome = true :=
  (C3_referee_gap_detector 101 "02.05.2025" "18:00" "\t" "Heim\t" "x").2.2
    (by decide) (by decide)

/-! ### C4 -/

/-- C4: a game present only online and not exempt lands in `unmatched`
exactly once and triggers exactly one aggregated operator email; an exempt
("GE") game never lands in `unmatched`; the email count never exceeds one
and is zero exactly when nothing was unmatched; and the merge still
processes the full table. -/
theorem C4_unmatched_handling (o gt : List GameRecord) (g : Nat)
    (r : GameRecord)
    (hu : (o.map (fun x => x.gameNumber)).Nodup)
    (hr : r ∈ o) (hg : r.gameNumber = g)
    (habs : lookupFirst gt g = none) :
    (r.category ≠ "GE" →
      (merge_tables o gt).unmatched.count g = 1 ∧
      operatorEmailCount (merge_tables o gt) = 1)
    ∧ (r.category = "GE" → g ∉ (merge_tables o gt).unmatched)
    ∧ operatorEmailCount (merge_tables o gt) ≤ 1
    ∧ (operatorEmailCount (merge_tables o gt) = 0 ↔
      (merge_tables o gt).unmatched = [])
    ∧ (merge_tables o gt).onlineTable.length = o.length := by
  have hlo : lookupFirst o g = some r := lookupFirst_eq_of_nodup hu hr hg
  have hpred : unmatchedPred o gt g = decide (r.category ≠ "GE") := by
    unfold unmatchedPred
    rw [habs, hlo]
    simp
  refine ⟨?_, ?_, ?_, ?_, ?_⟩
  · intro hcat
    have hptrue : unmatchedPred o gt g = true := by
      rw [hpred]
      simpa using hcat
    constructor
    · rw [merge_unmatched_eq, List.count_filter hptrue]
      exact List.count_eq_one_of_mem hu (List.mem_map.mpr ⟨r, hr, hg⟩)
    · have hmem : g ∈ (o.map (fun x => x.gameNumber)).filter
          (unmatchedPred o gt) :=
        List.mem_filter.mpr ⟨List.mem_map.mpr ⟨r, hr, hg⟩, hptrue⟩
      unfold operatorEmailCount
      rw [merge_sendError_eq, isEmpty_eq_false_of_mem hmem]
      rfl
  · intro hcat hmemu
    rw [merge_unmatched_eq] at hmemu
    have h2 := (List.mem_filter.mp hmemu).2
    rw [hpred] at h2
    simp [hcat] at h2
  · unfold operatorEmailCount
    split
    · exact Nat.le_refl 1
    · exact Nat.zero_le 1
  · unfold operatorEmailCount
    rw [merge_sendError_eq, merge_unmatched_eq]
    cases hF : (o.map (fun x => x.gameNumber)).filter (unmatchedPred o gt)
    · simp
    · simp
  · rw [merge_onlineTable_eq]
    exact List.length_map o _

def recC4 : GameRecord := { baseRec with gameNumber := 5 }

theorem C4_witness :
    (merge_tables [recC4] []).unmatched.count 5 = 1 ∧
    operatorEmailCount (merge_tables [recC4] []) = 1 :=
  (C4_unmatched_handling [recC4] [] 5 recC4 (by decide) (by decide) rfl
    rfl).1 (by decide)

/-! ### C8 -/

def recC8o : GameRecord := { baseRec with gameNumber := 7, date := "02.05.2025" }

def recC8p1 : GameRecord :=
  { baseRec with
    gameNumber := 7
    date := "01.05.2025"
    judge1 := "A"
    mailJudge1 := PyVal.pstr "a@x.test" }

def recC8p2 : GameRecord :=
  { baseRec with
    gameNumber := 7
    date := "02.05.2025"
    judge1 := "B"
    mailJudge1 := PyVal.pstr "b@x.test" }

/-- C8 counterexample: with game 7 twice in the persisted table, the
merged volunteer data comes from the FIRST matching row (judge "A"), not
the last ("B"), and the old date used for change detection is the first
row's, producing a shift event the last row would not have produced. -/
theorem C8_counterexample :
    [recC8p1, recC8p2].getLast? = some recC8p2
    ∧ recC8p2.judge1 = "B"
    ∧ recC8p2.date = "02.05.2025"
    ∧ (merge_tables [recC8o] [recC8p1, recC8p2]).onlineTable.map
        (fun m => m.judge1) = ["A"]
    ∧ (merge_tables [recC8o] [recC8p1, recC8p2]).shiftEvents =
        [⟨7, "01.05.2025", "18:00", "02.05.2025", "18:00"⟩] := by
  decide

/-- C8 amended: duplicate game numbers in the persisted table resolve with
first-match-wins semantics — merged volunteer fields, and the old
date/time and referee status driving change detection, come from the first
matching persisted row. -/
theorem C8_first_match_wins (o gt : List GameRecord) (g : Nat)
    (p : GameRecord) (hfind : lookupFirst gt g = some p) :
    (∀ m ∈ (merge_tables o gt).onlineTable, m.gameNumber = g →
      volData m = volData p)
    ∧ (∀ ev ∈ (merge_tables o gt).shiftEvents, ev.game = g →
      ev.oldDate = p.date ∧ ev.oldTime = p.time)
    ∧ (∀ ev ∈ (merge_tables o gt).refEvents, ev.game = g →
      ∃ n, lookupFirst o g = some n ∧ n.refereeStatus ≠ p.refereeStatus ∧
        strContains n.refereeStatus "Heim" = true) := by
  refine ⟨?_, ?_, ?_⟩
  · intro m hm hmg
    rw [merge_onlineTable_eq] at hm
    obtain ⟨r0, hr0, rfl⟩ := List.mem_map.mp hm
    rw [mergedRow_gameNumber] at hmg
    have hrow : mergedRow gt r0 = copyVols p r0 := by
      unfold mergedRow
      rw [hmg, hfind]
    rw [hrow, volData_copyVols]
  · intro ev hev hevg
    rw [merge_shiftEvents_eq] at hev
    obtain ⟨a, _, hfa⟩ := List.mem_filterMap.mp hev
    obtain ⟨hga, p2, n, hp2, hn, _, hod, hot, _, _⟩ := shiftEventFor_inv hfa
    rw [hevg] at hga
    rw [← hga] at hp2
    rw [hfind] at hp2
    injection hp2 with hp2e
    rw [hod, hot, ← hp2e]
    exact ⟨rfl, rfl⟩
  · intro ev hev hevg
    rw [merge_refEvents_eq] at hev
    obtain ⟨a, _, hfa⟩ := List.mem_filterMap.mp hev
    obtain ⟨hga, p2, n, hp2, hn, hne, hheim, _, _⟩ := refEventFor_inv hfa
    rw [hevg] at hga
    rw [← hga] at hp2 hn
    rw [hfind] at hp2
    injection hp2 with hp2e
    rw [hp2e]
    exact ⟨n, hn, hne, hheim⟩

theorem C8_witness :
    (⟨7, "01.05.2025", "18:00", "02.05.2025", "18:00"⟩ : ShiftEvent).oldDate =
      recC8p1.date ∧
    (⟨7, "01.05.2025", "18:00", "02.05.2025", "18:00"⟩ : ShiftEvent).oldTime =
      recC8p1.time :=
  (C8_first_match_wins [recC8o] [recC8p1, recC8p2] 7 recC8p1 rfl).2.1
    ⟨7, "01.05.2025", "18:00", "02.05.2025", "18:00"⟩ (by decide) rfl

/-! ### C5 -/

/-- C5: the main program's tomorrow referee check calls
`send_RefNotification` with a single positional argument — the date string
in the `game` slot — although the method's parameter list is
`(game, date, time)`; the argument list can never fill the parameters, and
the date string passed where a game number belongs also compares unequal
to every integer game number. -/
theorem C5_tomorrow_ref_call_mismatch : ∀ (s : String) (n : Nat),
    (mainTomorrowRefCallArgs s).length < send_RefNotification_params.length
    ∧ pyEq (PyVal.pint n) (PyVal.pstr s) = false := by
  intro s n
  exact ⟨(by norm_num : (1 : Nat) < 3), rfl⟩

/-! ### C6 -/

def recC6 : GameRecord :=
  { baseRec with
    gameNumber := 9
    jMV := "Maya"
    mailJMV := PyVal.pstr "maya@x.test"
    judge1 := "J1"
    mailJudge1 := PyVal.pstr "j1@x.test"
    judge2 := "J2"
    mailJudge2 := PyVal.pstr "j2@x.test"
    shop1 := "S1"
    mailShop1 := PyVal.pstr "s1@x.test"
    shop2 := "S2"
    mailShop2 := PyVal.pstr "s2@x.test"
    security := "Sec"
    mailSecurity := PyVal.pstr "sec@x.test"
    cleaning := "Cl"
    mailCleaning := PyVal.pstr "cl@x.test" }

def recC6o9 : GameRecord :=
  { baseRec with gameNumber := 9, date := "02.05.2025" }

/-- C6 counterexample: for a record whose team-liaison has a valid email
contact, the Task reminder's per-game dispatch includes the team-liaison
role, but the shift-changed alert's recipient list omits it — the shift
alert does not go to the same roles as the Task reminder. -/
theorem C6_counterexample :
    send_ShfitNotification [recC6] 9 =
      some [(Role.judge1, DispatchResult.sent Transport.email),
            (Role.judge2, DispatchResult.sent Transport.email),
            (Role.shop1, DispatchResult.sent Transport.email),
            (Role.shop2, DispatchResult.sent Transport.email),
            (Role.security, DispatchResult.sent Transport.email),
            (Role.cleaning, DispatchResult.sent Transport.email)]
    ∧ ((gameDispatchLog recC6).map Prod.fst).contains Role.teamLiaison = true
    ∧ (((send_ShfitNotification [recC6] 9).getD []).map Prod.fst).contains
        Role.teamLiaison = false := by
  decide

/-- C6 amended: every shift event fired during reconciliation belongs to a
matched game whose date or time actually changed, and the shift alert for
that game — looked up only through the bye filter, with no date filter —
is dispatched to the six job roles judge-1/2, concession-1/2, security and
cleaning, never to the team-liaison. -/
theorem C6_shift_alert_roles (o gt : List GameRecord) (ev : ShiftEvent)
    (hev : ev ∈ (merge_tables o gt).shiftEvents) (r : GameRecord)
    (hr : lookupFirst (gt.filter (fun q => q.guestTeam != "spielfrei"))
      ev.game = some r) :
    (∃ p n, lookupFirst gt ev.game = some p ∧ lookupFirst o ev.game = some n ∧
      (n.date ≠ p.date ∨ n.time ≠ p.time))
    ∧ send_ShfitNotification gt ev.game =
      some ((shiftReceivers r).map (fun rcv => (rcv.role, shiftDispatch rcv.mail)))
    ∧ ((shiftReceivers r).map (fun rcv =>
        (rcv.role, shiftDispatch rcv.mail))).map Prod.fst =
      [Role.judge1, Role.judge2, Role.shop1, Role.shop2, Role.security,
       Role.cleaning] := by
  refine ⟨?_, ?_, ?_⟩
  · rw [merge_shiftEvents_eq] at hev
    obtain ⟨a, _, hfa⟩ := List.mem_filterMap.mp hev
    obtain ⟨hga, p, n, hp, hn, hcond, _⟩ := shiftEventFor_inv hfa
    rw [hga]
    exact ⟨p, n, hp, hn, hcond⟩
  · unfold send_ShfitNotification
    rw [hr]
  · rfl

theorem C6_witness :
    send_ShfitNotification [recC6] 9 =
      some ((shiftReceivers recC6).map (fun rcv =>
        (rcv.role, shiftDispatch rcv.mail))) :=
  (C6_shift_alert_roles [recC6o9] [recC6]
    ⟨9, "01.05.2025", "18:00", "02.05.2025", "18:00"⟩ (by decide) recC6
    (by decide)).2.1

/-! ### C7 -/

def recC7m1 : GameRecord :=
  { baseRec with
    gameNumber := 21
    category := "MI"
    time := "14:00"
    homeTeam := "H1"
    guestTeam := "G1" }

def recC7m2 : GameRecord :=
  { baseRec with
    gameNumber := 22
    category := "MI"
    time := "15:00"
    homeTeam := "H2"
    guestTeam := "G2" }

def recC7g1 : GameRecord :=
  { baseRec with
    gameNumber := 23
    category := "GE"
    time := "14:00"
    homeTeam := "H3"
    guestTeam := "G3" }

def recC7g2 : GameRecord :=
  { baseRec with
    gameNumber := 24
    category := "GE"
    time := "15:00"
    homeTeam := "H4"
    guestTeam := "G4" }

/-- C7: evaluating the newspaper digest at two "MI" records shows the
second one gets its own individual line instead of collapsing into the
tournament line (the guard `("GE" or "MI") != team[i]` only compares
against "GE"), while two "GE" records do collapse into one line. -/
theorem C7_article_mi_bug :
    send_Article [recC7m1, recC7m2] "01.05.2025" =
      ([ArticleLine.miTournament "14:00",
        ArticleLine.single "MI" "H2" "G2" "15:00"], 2)
    ∧ send_Article [recC7g1, recC7g2] "01.05.2025" =
      ([ArticleLine.geTournament "14:00"], 1) := by
  decide

/-! ### C9 -/

def recC9 : GameRecord :=
  { baseRec with
    gameNumber := 11
    mailJMV := PyVal.pnan
    mailJudge1 := PyVal.pnan
    mailJudge2 := PyVal.pnan
    mailShop1 := PyVal.pnan
    mailShop2 := PyVal.pnan
    mailSecurity := PyVal.pnan
    mailCleaning := PyVal.pnan }

theorem charStarts_self (l : List Char) : charStarts l l = true := by
  induction l with
  | nil => rfl
  | cons a as ih => simp [charStarts, ih]

theorem charSub_append_right (pre l : List Char) : charSub l (pre ++ l) = true := by
  induction pre with
  | nil =>
    cases l with
    | nil => rfl
    | cons c cs => simp [charSub, charStarts_self]
  | cons a pre2 ih => simp [charSub, ih]

/-- A string contains any of its suffixes as a substring. -/
theorem strContains_append_right (s1 s2 : String) :
    strContains (s1 ++ s2) s2 = true := by
  unfold strContains
  have h : (s1 ++ s2).toList = s1.toList ++ s2.toList := rfl
  rw [h]
  exact charSub_append_right s1.toList s2.toList

/-- The job receiver loop of `send_Notifications` together with the
warning it logs: the fallback branch warns
"No valid phone number or email adress available at game <game>" (the
source's spelling), the non-string case logs nothing. -/
def taskDispatchWarn (game : Nat) (mail : PyVal) :
    DispatchResult × Option String :=
  match mail with
  | .pstr s =>
    if strContains s "@" then (.sent .email, none)
    else if strContains s "+" then (.sent .sms, none)
    else (.skippedWarn,
      some ("No valid phone number or email adress available at game " ++
        Nat.repr game))
  | _ => (.skippedSilent, none)

/-- The MV branch of `send_Notifications` with its logged warning (same
game-naming text as the job loop). -/
def mvDispatchWarn (game : Nat) (mail : PyVal) :
    DispatchResult × Option String :=
  match mail with
  | .pstr s =>
    if strContains s "@" then (.sent .email, none)
    else if strContains s "+" then (.sent .sms, none)
    else (.skippedWarn,
      some ("No valid phone number or email adress available at game " ++
        Nat.repr game))
  | _ => (.skippedSilent, none)

/-- The coordinator loop of `send_RefNotification` with its logged
warning: the fallback warns
"No valid phone number or email address available for <Name>" — it names
the coordinator, not the game. -/
def refCoordDispatchWarn (name : String) (address : PyVal) :
    DispatchResult × Option String :=
  match address with
  | .pstr s =>
    if strContains s "@" then (.sent .email, none)
    else if strContains s "+" then (.sent .sms, none)
    else (.skippedWarn,
      some ("No valid phone number or email address available for " ++ name))
  | _ => (.skippedSilent, none)

/-- The receiver loop of `send_ServiceNotifications` with its logged
warning (game-naming text). -/
def serviceDispatchWarn (game : Nat) (mail : PyVal) :
    DispatchResult × Option String :=
  match mail with
  | .pstr s =>
    if strContains s "@" then (.sent .email, none)
    else if strContains s "+" then (.sent .sms, none)
    else (.skippedWarn,
      some ("No valid phone number or email adress available at game " ++
        Nat.repr game))
  | _ => (.skippedSilent, none)

/-- The receiver loop of `send_PreNotifications` with its logged warning
(game-naming text). -/
def preTaskDispatchWarn (game : Nat) (mail : PyVal) :
    DispatchResult × Option String :=
  match mail with
  | .pstr s =>
    if strContains s "@" then (.sent .email, none)
    else if strContains s "+" then (.sent .sms, none)
    else (.skippedWarn,
      some ("No valid phone number or email adress available at game " ++
        Nat.repr game))
  | _ => (.skippedSilent, none)

/-- The receiver loop of `send_ShfitNotification` with its logged warning
(game-naming text). -/
def shiftDispatchWarn (game : Nat) (mail : PyVal) :
    DispatchResult × Option String :=
  match mail with
  | .pstr s =>
    if strContains s "@" then (.sent .email, none)
    else if strContains s "+" then (.sent .sms, none)
    else (.skippedWarn,
      some ("No valid phone number or email adress available at game " ++
        Nat.repr game))
  | _ => (.skippedSilent, none)

theorem taskDispatchWarn_fst (game : Nat) (m : PyVal) :
    (taskDispatchWarn game m).1 = taskDispatch m := by
  cases m with
  | pstr s =>
    unfold taskDispatchWarn taskDispatch
    cases h1 : strContains s "@" <;> cases h2 : strContains s "+" <;>
      simp [h1, h2]
  | pint n => rfl
  | pnan => rfl

theorem mvDispatchWarn_fst (game : Nat) (m : PyVal) :
    (mvDispatchWarn game m).1 = mvDispatch m := by
  cases m with
  | pstr s =>
    unfold mvDispatchWarn mvDispatch
    cases h1 : strContains s "@" <;> cases h2 : strContains s "+" <;>
      simp [h1, h2]
  | pint n => rfl
  | pnan => rfl

theorem refCoordDispatchWarn_fst (name : String) (m : PyVal) :
    (refCoordDispatchWarn name m).1 = refCoordDispatch m := by
  cases m with
  | pstr s =>
    unfold refCoordDispatchWarn refCoordDispatch
    cases h1 : strContains s "@" <;> cases h2 : strContains s "+" <;>
      simp [h1, h2]
  | pint n => rfl
  | pnan => rfl

theorem serviceDispatchWarn_fst (game : Nat) (m : PyVal) :
    (serviceDispatchWarn game m).1 = serviceDispatch m := by
  cases m with
  | pstr s =>
    unfold serviceDispatchWarn serviceDispatch
    cases h1 : strContains s "@" <;> cases h2 : strContains s "+" <;>
      simp [h1, h2]
  | pint n => rfl
  | pnan => rfl

theorem preTaskDispatchWarn_fst (game : Nat) (m : PyVal) :
    (preTaskDispatchWarn game m).1 = preTaskDispatch m := by
  cases m with
  | pstr s =>
    unfold preTaskDispatchWarn preTaskDispatch
    cases h1 : strContains s "@" <;> cases h2 : strContains s "+" <;>
      simp [h1, h2]
  | pint n => rfl
  | pnan => rfl

theorem shiftDispatchWarn_fst (game : Nat) (m : PyVal) :
    (shiftDispatchWarn game m).1 = shiftDispatch m := by
  cases m with
  | pstr s =>
    unfold shiftDispatchWarn shiftDispatch
    cases h1 : strContains s "@" <;> cases h2 : strContains s "+" <;>
      simp [h1, h2]
  | pint n => rfl
  | pnan => rfl

/-- C9 counterexample: a recipient whose contact cell is not a string (a
pandas NaN) is skipped silently — the outer `type(...) == str` check has
no else branch, so no warning is logged, contrary to the claim that
empty-or-non-string contacts are skipped with a warning; and the
referee-coordinator site's fallback warning names only the coordinator,
not the game, contrary to the claim's "warning naming the game" for every
category. -/
theorem C9_counterexample :
    (send_Notifications [recC9] "01.05.2025").map (fun e => e.2.2) =
      List.replicate 7 DispatchResult.skippedSilent
    ∧ DispatchResult.skippedSilent ≠ DispatchResult.skippedWarn
    ∧ sentCount (gameDispatchLog recC9) = 0
    ∧ (refCoordDispatchWarn "Max" (PyVal.pstr "")).2 =
      some "No valid phone number or email address available for Max"
    ∧ strContains "No valid phone number or email address available for Max"
      (Nat.repr 11) = false
    ∧ strContains ((taskDispatchWarn 11 (PyVal.pstr "")).2.getD "")
      (Nat.repr 11) = true := by
  decide

theorem isSent_taskDispatch (m : PyVal) :
    (match taskDispatch m with
      | DispatchResult.sent _ => true
      | _ => false) = validContact m := by
  cases m with
  | pstr s =>
    unfold taskDispatch validContact
    cases h1 : strContains s "@" <;> cases h2 : strContains s "+" <;>
      simp [h1, h2]
  | pint n => rfl
  | pnan => rfl

theorem isSent_mvDispatch (m : PyVal) :
    (match mvDispatch m with
      | DispatchResult.sent _ => true
      | _ => false) = validContact m := by
  cases m with
  | pstr s =>
    unfold mvDispatch validContact
    cases h1 : strContains s "@" <;> cases h2 : strContains s "+" <;>
      simp [h1, h2]
  | pint n => rfl
  | pnan => rfl

/-- C9 amended: per candidate recipient at every sniffing site, a
non-string contact is silently skipped (nothing sent, nothing logged); a
string contact yields an email when it contains "@", else an SMS when it
contains "+", else a skip with a logged warning — the empty string
included — where the five volunteer-facing sites (task, team-liaison,
service, pre-task, shift) log the same warning naming the game while the
referee-coordinator site's warning names the coordinator instead; skips
never halt the loop (all seven recipients of a game are processed) and
the dispatch counter counts exactly the recipients whose contact reaches
a transport. -/
theorem C9_recipient_resolution : ∀ (s : String) (r : GameRecord) (g : Nat)
    (nm : String),
    (taskDispatchWarn g PyVal.pnan = (DispatchResult.skippedSilent, none)
      ∧ mvDispatchWarn g PyVal.pnan = (DispatchResult.skippedSilent, none)
      ∧ refCoordDispatchWarn nm PyVal.pnan = (DispatchResult.skippedSilent, none)
      ∧ serviceDispatchWarn g PyVal.pnan = (DispatchResult.skippedSilent, none)
      ∧ preTaskDispatchWarn g PyVal.pnan = (DispatchResult.skippedSilent, none)
      ∧ shiftDispatchWarn g PyVal.pnan = (DispatchResult.skippedSilent, none))
    ∧ taskDispatch (PyVal.pstr "") = DispatchResult.skippedWarn
    ∧ (strContains s "@" = true →
      (taskDispatchWarn g (PyVal.pstr s)).1 = DispatchResult.sent Transport.email)
    ∧ (strContains s "@" = false → strContains s "+" = true →
      (taskDispatchWarn g (PyVal.pstr s)).1 = DispatchResult.sent Transport.sms)
    ∧ (strContains s "@" = false → strContains s "+" = false →
      taskDispatchWarn g (PyVal.pstr s) = (DispatchResult.skippedWarn,
        some ("No valid phone number or email adress available at game " ++
          Nat.repr g))
      ∧ mvDispatchWarn g (PyVal.pstr s) = taskDispatchWarn g (PyVal.pstr s)
      ∧ serviceDispatchWarn g (PyVal.pstr s) = taskDispatchWarn g (PyVal.pstr s)
      ∧ preTaskDispatchWarn g (PyVal.pstr s) = taskDispatchWarn g (PyVal.pstr s)
      ∧ shiftDispatchWarn g (PyVal.pstr s) = taskDispatchWarn g (PyVal.pstr s)
      ∧ refCoordDispatchWarn nm (PyVal.pstr s) = (DispatchResult.skippedWarn,
        some ("No valid phone number or email address available for " ++ nm)))
    ∧ (∀ m, (taskDispatchWarn g m).1 = taskDispatch m
      ∧ (mvDispatchWarn g m).1 = mvDispatch m
      ∧ (refCoordDispatchWarn nm m).1 = refCoordDispatch m
      ∧ (serviceDispatchWarn g m).1 = serviceDispatch m
      ∧ (preTaskDispatchWarn g m).1 = preTaskDispatch m
      ∧ (shiftDispatchWarn g m).1 = shiftDispatch m)
    ∧ (strContains ("No valid phone number or email adress available at game "
        ++ Nat.repr g) (Nat.repr g) = true
      ∧ strContains ("No valid phone number or email address available for "
        ++ nm) nm = true)
    ∧ (gameDispatchLog r).length = 7
    ∧ sentCount (gameDispatchLog r) =
      ((contactsOf r).filter validContact).length := by
  intro s r g nm
  refine ⟨⟨rfl, rfl, rfl, rfl, rfl, rfl⟩, by decide, ?_, ?_, ?_, ?_,
    ⟨strContains_append_right _ _, strContains_append_right _ _⟩, rfl, ?_⟩
  · intro h1
    simp [taskDispatchWarn, h1]
  · intro h1 h2
    simp [taskDispatchWarn, h1, h2]
  · intro h1 h2
    refine ⟨?_, ?_, ?_, ?_, ?_, ?_⟩ <;>
      simp [taskDispatchWarn, mvDispatchWarn, serviceDispatchWarn,
        preTaskDispatchWarn, shiftDispatchWarn, refCoordDispatchWarn, h1, h2]
  · intro m
    exact ⟨taskDispatchWarn_fst g m, mvDispatchWarn_fst g m,
      refCoordDispatchWarn_fst nm m, serviceDispatchWarn_fst g m,
      preTaskDispatchWarn_fst g m, shiftDispatchWarn_fst g m⟩
  · rw [← List.countP_eq_length_filter]
    simp only [sentCount, gameDispatchLog, taskReceivers, contactsOf,
      List.map_cons, List.map_nil, List.cons_append, List.nil_append,
      List.countP_cons, List.countP_nil]
    rw [isSent_taskDispatch, isSent_taskDispatch, isSent_taskDispatch,
      isSent_taskDispatch, isSent_taskDispatch, isSent_taskDispatch,
      isSent_mvDispatch]

theorem C9_witness :
    taskDispatchWarn 11 (PyVal.pstr "") = (DispatchResult.skippedWarn,
      some ("No valid phone number or email adress available at game " ++
        Nat.repr 11))
    ∧ refCoordDispatchWarn "Max" (PyVal.pstr "") = (DispatchResult.skippedWarn,
      some ("No valid phone number or email address available for " ++ "Max"))
    ∧ (taskDispatchWarn 11 (PyVal.pstr "alice@x.test")).1 =
      DispatchResult.sent Transport.email :=
  ⟨((C9_recipient_resolution "" baseRec 11 "Max").2.2.2.2.1 (by decide)
      (by decide)).1,
   ((C9_recipient_resolution "" baseRec 11 "Max").2.2.2.2.1 (by decide)
      (by decide)).2.2.2.2.2,
   (C9_recipient_resolution "alice@x.test" baseRec 11 "Max").2.2.1
      (by decide)⟩

/-! ### C10 -/

/-- C10: a contact containing both "@" and "+" is dispatched via email —
each of the six contact-sniffing sites tests the "@" branch before the "+"
branch — and all six sites compute the same transport choice for every
contact value. -/
theorem C10_email_precedence : ∀ (s : String) (m : PyVal),
    (strContains s "@" = true → strContains s "+" = true →
      taskDispatch (PyVal.pstr s) = DispatchResult.sent Transport.email
      ∧ mvDispatch (PyVal.pstr s) = DispatchResult.sent Transport.email
      ∧ refCoordDispatch (PyVal.pstr s) = DispatchResult.sent Transport.email
      ∧ serviceDispatch (PyVal.pstr s) = DispatchResult.sent Transport.email
      ∧ preTaskDispatch (PyVal.pstr s) = DispatchResult.sent Transport.email
      ∧ shiftDispatch (PyVal.pstr s) = DispatchResult.sent Transport.email)
    ∧ (mvDispatch m = taskDispatch m
      ∧ refCoordDispatch m = taskDispatch m
      ∧ serviceDispatch m = taskDispatch m
      ∧ preTaskDispatch m = taskDispatch m
      ∧ shiftDispatch m = taskDispatch m) := by
  intro s m
  constructor
  · intro h1 _
    refine ⟨?_, ?_, ?_, ?_, ?_, ?_⟩ <;>
      simp [taskDispatch, mvDispatch, refCoordDispatch, serviceDispatch,
        preTaskDispatch, shiftDispatch, h1]
  · cases m <;> exact ⟨rfl, rfl, rfl, rfl, rfl⟩

theorem C10_witness :
    taskDispatch (PyVal.pstr "a@b+c") = DispatchResult.sent Transport.email ∧
    shiftDispatch (PyVal.pstr "a@b+c") = DispatchResult.sent Transport.email :=
  ⟨((C10_email_precedence "a@b+c" PyVal.pnan).1 (by decide) (by decide)).1,
   ((C10_email_precedence "a@b+c" PyVal.pnan).1 (by decide)
     (by decide)).2.2.2.2.2⟩

end NuLiga
